import Mathlib

/-!
Verification of the `dask-examples` notebook repository
(`dataframe.ipynb`, `dag.ipynb`, and an unnamed dataframe notebook,
called `part000` below).

The repository is a set of Jupyter notebooks.  The authored Python code is
shallowly embedded here in two complementary ways:

* the few authored functions with actual computational content
  (`human_readable_size`, `measure_sum_speed`, `measure_train_speed`,
  `train`) are translated into executable Lean functions; machine floats
  are modelled by `ℚ` (the properties proved do not depend on rounding),
  and wall-clock timing — which is not representable in a pure embedding —
  is supplied by oracle functions in an explicit environment;

* the full cell structure of the three notebooks is embedded as a small
  statement syntax (`Stmt`), faithful to the statement-level structure of
  the source: imports, assignments, bare expressions, `def`s, `while` and
  `for` loops, `return`s.  Each statement records the Python identifiers
  its expressions read, so that freedom from module-level state is a
  computable predicate.  The syntax also has constructors for `try/except`
  and for concurrency primitives (locks, spawns, cancellations) precisely
  so that their absence from the authored code is a provable statement.
-/

/-! ## Python `range` -/

/-- Number of elements of Python `range(start, stop, step)` for a
non-negative step (`0` when `stop ≤ start`; Python raises on `step = 0`,
which never occurs in the notebooks' uses proved about below). -/
def rangeLen (start stop step : Nat) : Nat :=
  (stop - start + step - 1) / step

/-- Python `range(start, stop, step)` as the list of produced values. -/
def pyRange (start stop step : Nat) : List Nat :=
  List.range' start (rangeLen start stop step) step

/-! ## `human_readable_size` (dataframe.ipynb)

```python
def human_readable_size(size,precision=2):
    suffixes=['B','KB','MB','GB','TB']
    suffixIndex = 0
    while size > 1024 and suffixIndex < 4:
        suffixIndex += 1
        size = size/1024.0
    return "%.*f%s"%(precision,size,suffixes[suffixIndex])
```

Python floats are modelled by `ℚ`; the `%.*f` string formatting is kept
abstract as the triple (precision, magnitude, suffix) it formats.  The
Python list indexing `suffixes[suffixIndex]` raises `IndexError` when out
of bounds, so the lookup is modelled with `List.get?` and the whole
function returns an `Option`. -/

def suffixes : List String := ["B", "KB", "MB", "GB", "TB"]

/-- The `while` loop of `human_readable_size`: state is
(`size`, `suffixIndex`). -/
def hrs_loop (size : ℚ) (suffixIndex : Nat) : ℚ × Nat :=
  if h : size > 1024 ∧ suffixIndex < 4 then
    hrs_loop (size / 1024) (suffixIndex + 1)
  else
    (size, suffixIndex)
termination_by 4 - suffixIndex
decreasing_by omega

/-- Function `human_readable_size`, returning the (precision, magnitude, suffix)
triple that the Python `"%.*f%s"` format string renders, or `none` if the
list indexing would raise. -/
def human_readable_size (size : ℚ) (precision : Nat) :
    Option (Nat × ℚ × String) :=
  let r := hrs_loop size 0
  (suffixes.get? r.2).map (fun s => (precision, r.1, s))

/-- Modelled from the claim's words, for comparison with the loop: the
smallest index `k` (capped at 4) such that `size / 1024 ^ k ≤ 1024`. -/
def kSpec (size : ℚ) : Nat :=
  if size ≤ 1024 then 0
  else if size / 1024 ^ 1 ≤ 1024 then 1
  else if size / 1024 ^ 2 ≤ 1024 then 2
  else if size / 1024 ^ 3 ≤ 1024 then 3
  else 4

/-! ## Client constructions

The three notebooks construct a distributed client:

* dataframe.ipynb: `Client(n_workers=2, threads_per_worker=2, memory_limit='2GB')`
* part000:        `Client(processes=False, threads_per_worker=4, n_workers=1)`
* dag.ipynb:      `Client(n_workers=2, threads_per_worker=2, memory_limit='2GB')`

Each call is modelled as the record of keyword arguments it passes;
an omitted keyword is `none`. -/

structure ClientCall where
  n_workers : Option Nat
  threads_per_worker : Option Nat
  memory_limit : Option String
  processes : Option Bool
  deriving DecidableEq, Repr

def client_dataframe : ClientCall :=
  { n_workers := some 2, threads_per_worker := some 2,
    memory_limit := some "2GB", processes := none }

def client_part000 : ClientCall :=
  { n_workers := some 1, threads_per_worker := some 4,
    memory_limit := none, processes := some false }

def client_dag : ClientCall :=
  { n_workers := some 2, threads_per_worker := some 2,
    memory_limit := some "2GB", processes := none }

def clientCalls : List ClientCall := [client_dataframe, client_part000, client_dag]

/-- The keyword names a client construction actually passes, in source
order of the record fields. -/
def ClientCall.keywords (c : ClientCall) : List String :=
  (if c.n_workers.isSome then ["n_workers"] else []) ++
  (if c.threads_per_worker.isSome then ["threads_per_worker"] else []) ++
  (if c.memory_limit.isSome then ["memory_limit"] else []) ++
  (if c.processes.isSome then ["processes"] else [])

/-! ## Timeseries dataset generation

* part000:
  `dd.demo.make_timeseries('2000-01-01', '2000-12-31', freq='10s',
     partition_freq='1M', dtypes={'name': str, 'id': int, 'x': float, 'y': float})`
* dataframe.ipynb: `dask.datasets.timeseries()` — no arguments at all. -/

structure TimeseriesCall where
  start : Option String
  stop : Option String
  freq : Option String
  partition_freq : Option String
  dtypes : Option (List (String × String))
  deriving DecidableEq, Repr

def timeseries_part000 : TimeseriesCall :=
  { start := some "2000-01-01", stop := some "2000-12-31",
    freq := some "10s", partition_freq := some "1M",
    dtypes := some [("name", "str"), ("id", "int"), ("x", "float"), ("y", "float")] }

def timeseries_dataframe : TimeseriesCall :=
  { start := none, stop := none, freq := none, partition_freq := none,
    dtypes := none }

def timeseriesCalls : List TimeseriesCall :=
  [timeseries_part000, timeseries_dataframe]

/-- All five configurable parameters are passed explicitly. -/
def TimeseriesCall.passesAll (t : TimeseriesCall) : Bool :=
  t.start.isSome && t.stop.isSome && t.freq.isSome &&
  t.partition_freq.isSome && t.dtypes.isSome

/-! ## The two authored `train` functions

part000:
```python
def train(partition):
    est = LinearRegression()
    est.fit(partition[['x']].values, partition.y.values)
    return est
```
dataframe.ipynb:
```python
def train(partition):
    est = LinearRegression()
    est.fit(partition[['x']].values, partition.y.values)
```
(no `return`: the Python function returns `None`).

The external estimator is opaque to this repository; it is modelled as a
record of the training columns it was fitted on, and a Python function
that may return `None` is modelled with `Option`. -/

structure Partition where
  x : List ℚ
  y : List ℚ
  deriving DecidableEq, Repr

structure FittedModel where
  trainX : List ℚ
  trainY : List ℚ
  deriving DecidableEq, Repr

/-- The external library's `LinearRegression().fit(X, y)`. -/
def linearRegressionFit (p : Partition) : FittedModel :=
  { trainX := p.x, trainY := p.y }

/-- Function `train` as authored in part000: fits and returns the estimator. -/
def train_part000 (partition : Partition) : Option FittedModel :=
  let est := linearRegressionFit partition
  some est

/-- Function `train` as authored in dataframe.ipynb: fits the estimator but falls
off the end of the function, returning Python `None`. -/
def train_dataframe (partition : Partition) : Option FittedModel :=
  let _est := linearRegressionFit partition
  none

/-- Call `groupby('name').apply(train)`: one result per group. -/
def groupbyApply (train : Partition → Option FittedModel)
    (groups : List Partition) : List (Option FittedModel) :=
  groups.map train

/-! ## The benchmark loops (dataframe.ipynb)

```python
CHUNK_SIZE = 100000
def measure_sum_speed():
    len_df = len(df)
    dask_speed = []
    pandas_speed = []
    for count in range(CHUNK_SIZE, len_df, CHUNK_SIZE):
        ...
        dask_speed.append((time.time() - start_time))
        ...
        pandas_speed.append((time.time() - start_time))
    return dask_speed, pandas_speed
```

`measure_train_speed` is identical in shape but iterates over
`range(100000, len_df, 100000)` with a hard-coded step instead of
`CHUNK_SIZE`.

Both functions take no parameters and read the module-level variables
`df`, `ddf` (and for the first one `CHUNK_SIZE`); the module state they
read is made explicit as a `NotebookEnv`.  Elapsed wall-clock time is not
expressible in a pure embedding, so the time measured on the iteration
for a given `count` is supplied by oracle functions in the environment;
the list-building structure of the loops is the faithful part. -/

structure NotebookEnv where
  /-- Value of `len(df)`: number of rows of the computed dataframe. -/
  df_len : Nat
  /-- the module-level variable `CHUNK_SIZE`. -/
  CHUNK_SIZE : Nat
  /-- elapsed time of `ddf.head(count).x.sum().compute()` at `count`. -/
  dask_sum_time : Nat → ℚ
  /-- elapsed time of `df.head(count).x.sum()` at `count`. -/
  pandas_sum_time : Nat → ℚ
  /-- elapsed time of the dask groupby-apply-train at `count`. -/
  dask_train_time : Nat → ℚ
  /-- elapsed time of the pandas groupby-apply-train at `count`. -/
  pandas_train_time : Nat → ℚ

def measure_sum_speed (env : NotebookEnv) : List ℚ × List ℚ :=
  let len_df := env.df_len
  (pyRange env.CHUNK_SIZE len_df env.CHUNK_SIZE).foldl
    (fun acc count =>
      (acc.1 ++ [env.dask_sum_time count], acc.2 ++ [env.pandas_sum_time count]))
    ([], [])

def measure_train_speed (env : NotebookEnv) : List ℚ × List ℚ :=
  let len_df := env.df_len
  (pyRange 100000 len_df 100000).foldl
    (fun acc count =>
      (acc.1 ++ [env.dask_train_time count], acc.2 ++ [env.pandas_train_time count]))
    ([], [])

/-! ## Statement-level embedding of the notebook cells

Each authored code cell is a list of statements.  A statement records the
Python identifiers its expressions read (function names and variables
alike); binding occurrences (assignment targets, loop variables, `def`
names, parameters) are recorded separately in the constructors.  The
syntax also provides `try/except` and concurrency primitives so their
absence from the authored code is expressible. -/

inductive Stmt where
  /-- an `import` / `from ... import ...` statement. -/
  | imp (modName : String)
  /-- `t1, ..., tn = expr`, where the expression reads `reads`. -/
  | assign (targets : List String) (reads : List String)
  /-- `t += expr` (reads its target as well as `reads`). -/
  | augAssign (target : String) (reads : List String)
  /-- a bare expression statement (display, call, magic). -/
  | exprStmt (reads : List String)
  /-- a `return` statement. -/
  | ret (reads : List String)
  /-- a function definition. -/
  | funcDef (fname : String) (decorators : List String)
      (params : List String) (body : List Stmt)
  /-- a `while` loop whose condition reads `reads`. -/
  | whileLoop (reads : List String) (body : List Stmt)
  /-- a `for` loop binding `vars`, iterating over an expression reading `reads`. -/
  | forLoop (vars : List String) (reads : List String) (body : List Stmt)
  /-- a `try:` block with its `except` handlers. -/
  | tryStmt (body : List Stmt) (handlers : List Stmt)
  /-- a `with lock:` block (lock acquisition). -/
  | lockStmt (body : List Stmt)
  /-- spawning a thread / scheduling work directly. -/
  | spawnStmt (reads : List String)
  /-- cancelling a task / future. -/
  | cancelStmt (reads : List String)

abbrev Cell := List Stmt

/-! ### dataframe.ipynb, code cells in order -/

def df_c01 : Cell :=
  [.imp "dask.distributed",
   .assign ["client"] ["Client"],
   .exprStmt ["client"]]

def df_c02 : Cell :=
  [.imp "dask", .imp "dask.dataframe",
   .assign ["ddf"] ["dask"]]

def df_c03 : Cell := [.exprStmt ["ddf"]]

def df_c04 : Cell := [.exprStmt ["ddf"]]

/-- Body of the authored `human_readable_size`. -/
def human_readable_size_body : List Stmt :=
  [.assign ["suffixes"] [],
   .assign ["suffixIndex"] [],
   .whileLoop ["size", "suffixIndex"]
     [.augAssign "suffixIndex" [],
      .assign ["size"] ["size"]],
   .ret ["precision", "size", "suffixes", "suffixIndex"]]

def df_c05 : Cell :=
  [.funcDef "human_readable_size" [] ["size", "precision"]
    human_readable_size_body]

def df_c06 : Cell := [.exprStmt ["human_readable_size", "ddf"]]

def df_c07 : Cell :=
  [.imp "time",
   .assign ["start_time"] ["time"],
   .assign ["df"] ["ddf"],
   .exprStmt ["print", "time", "start_time"]]

def df_c08 : Cell :=
  [.imp "sys",
   .exprStmt ["human_readable_size", "sys", "df"]]

def df_c09 : Cell := [.exprStmt ["len", "df"]]

def df_c10 : Cell := [.assign ["CHUNK_SIZE"] []]

/-- Body of the authored `measure_sum_speed`. -/
def measure_sum_speed_body : List Stmt :=
  [.assign ["len_df"] ["len", "df"],
   .assign ["dask_speed"] [],
   .assign ["pandas_speed"] [],
   .forLoop ["count"] ["range", "CHUNK_SIZE", "len_df"]
     [.assign ["ddf_chunk"] ["ddf", "count"],
      .assign ["df_chunk"] ["df", "count"],
      .assign ["start_time"] ["time"],
      .exprStmt ["ddf_chunk"],
      .exprStmt ["dask_speed", "time", "start_time"],
      .assign ["start_time"] ["time"],
      .exprStmt ["df_chunk"],
      .exprStmt ["pandas_speed", "time", "start_time"]],
   .ret ["dask_speed", "pandas_speed"]]

def df_c11 : Cell :=
  [.funcDef "measure_sum_speed" [] [] measure_sum_speed_body]

def df_c12 : Cell :=
  [.assign ["dask_speed", "pandas_speed"] ["measure_sum_speed"]]

def df_c13 : Cell :=
  [.imp "matplotlib.pyplot", .imp "numpy",
   .assign ["x"] ["range", "CHUNK_SIZE", "len", "df"],
   .assign ["f", "ax"] ["plt"],
   .exprStmt ["ax", "x", "dask_speed"],
   .exprStmt ["ax", "x", "pandas_speed"],
   .exprStmt ["ax"],
   .exprStmt ["f"]]

/-- Body of `train` as authored in dataframe.ipynb (no `return`). -/
def train_dataframe_body : List Stmt :=
  [.assign ["est"] ["LinearRegression"],
   .exprStmt ["est", "partition"]]

def df_c14 : Cell :=
  [.imp "sklearn.linear_model",
   .funcDef "train" [] ["partition"] train_dataframe_body]

/-- Body of the authored `measure_train_speed` (the `range` steps are the
literal `100000`, so its loop header reads no module variable beyond
`len_df`). -/
def measure_train_speed_body : List Stmt :=
  [.assign ["len_df"] ["len", "df"],
   .assign ["dask_speed"] [],
   .assign ["pandas_speed"] [],
   .forLoop ["count"] ["range", "len_df"]
     [.assign ["ddf_chunk"] ["ddf", "count"],
      .assign ["df_chunk"] ["df", "count"],
      .assign ["start_time"] ["time"],
      .exprStmt ["ddf_chunk", "train"],
      .exprStmt ["dask_speed", "time", "start_time"],
      .assign ["start_time"] ["time"],
      .exprStmt ["df_chunk", "train"],
      .exprStmt ["pandas_speed", "time", "start_time"]],
   .ret ["dask_speed", "pandas_speed"]]

def df_c15 : Cell :=
  [.imp "pandas",
   .funcDef "measure_train_speed" [] [] measure_train_speed_body]

def df_c16 : Cell :=
  [.imp "warnings",
   .exprStmt ["warnings"],
   .assign ["dask_speed", "pandas_speed"] ["measure_train_speed"]]

def df_c17 : Cell :=
  [.imp "matplotlib.pyplot", .imp "numpy",
   .assign ["x"] ["range", "CHUNK_SIZE", "len", "df"],
   .assign ["f", "ax"] ["plt"],
   .exprStmt ["ax", "x", "dask_speed"],
   .exprStmt ["ax", "x", "pandas_speed"],
   .exprStmt ["ax"],
   .exprStmt ["f"]]

/-! ### dag.ipynb, code cells in order -/

def dag_c01 : Cell :=
  [.imp "dask.distributed",
   .assign ["client"] ["Client"],
   .exprStmt ["client"]]

def dag_c02 : Cell :=
  [.imp "dask",
   .funcDef "inc" ["dask.delayed"] ["i"] [.ret ["i"]],
   .funcDef "add" ["dask.delayed"] ["a", "b"] [.ret ["a", "b"]]]

def dag_c03 : Cell :=
  [.assign ["x"] [],
   .assign ["y"] ["inc", "x"],
   .assign ["z"] ["add", "y"],
   .exprStmt ["z"]]

def dag_c04 : Cell :=
  [.assign ["x"] ["inc"],
   .assign ["y"] ["inc"],
   .assign ["z"] ["add", "x", "y"],
   .exprStmt ["z"]]

def dag_c05 : Cell := [.imp "dask.array"]

def dag_c06 : Cell := [.assign ["x"] ["da"], .exprStmt ["x"]]

def dag_c07 : Cell := [.exprStmt ["x"]]

def dag_c08 : Cell := [.exprStmt ["x"]]

def dag_c09 : Cell := [.exprStmt ["x"]]

def dag_c10 : Cell := [.exprStmt ["x"]]

/-! ### part000 (unnamed dataframe notebook), code cells in order -/

def p0_c01 : Cell :=
  [.imp "dask.distributed",
   .assign ["client"] ["Client"],
   .exprStmt ["client"]]

def p0_c02 : Cell :=
  [.imp "dask.dataframe",
   .assign ["df"] ["dd"],
   .exprStmt ["df"]]

def p0_c03 : Cell := [.exprStmt ["df"]]

def p0_c04 : Cell := [.exprStmt ["df"]]

def p0_c05 : Cell :=
  [.assign ["df2"] ["df"],
   .assign ["df3"] ["df2"],
   .exprStmt ["df3"]]

def p0_c06 : Cell := [.exprStmt ["df3"]]

def p0_c07 : Cell := [.assign ["df"] ["df"]]

def p0_c08 : Cell := [.exprStmt []]

def p0_c09 : Cell := [.exprStmt ["df"]]

def p0_c10 : Cell := [.exprStmt ["df"]]

def p0_c11 : Cell := [.exprStmt ["df"]]

def p0_c12 : Cell := [.exprStmt ["df"]]

def p0_c13 : Cell := [.exprStmt ["df"]]

def p0_c14 : Cell := [.assign ["df"] ["df"], .exprStmt ["df"]]

def p0_c15 : Cell := [.assign ["df"] ["df"]]

def p0_c16 : Cell := [.exprStmt ["df"]]

/-- Body of `train` as authored in part000 (returns the estimator). -/
def train_part000_body : List Stmt :=
  [.assign ["est"] ["LinearRegression"],
   .exprStmt ["est", "partition"],
   .ret ["est"]]

def p0_c17 : Cell :=
  [.imp "sklearn.linear_model",
   .funcDef "train" [] ["partition"] train_part000_body]

def p0_c18 : Cell := [.exprStmt ["df", "train"]]

/-- All authored code cells, labeled by notebook and position. -/
def allCells : List (String × Cell) :=
  [("df_c01", df_c01), ("df_c02", df_c02), ("df_c03", df_c03),
   ("df_c04", df_c04), ("df_c05", df_c05), ("df_c06", df_c06),
   ("df_c07", df_c07), ("df_c08", df_c08), ("df_c09", df_c09),
   ("df_c10", df_c10), ("df_c11", df_c11), ("df_c12", df_c12),
   ("df_c13", df_c13), ("df_c14", df_c14), ("df_c15", df_c15),
   ("df_c16", df_c16), ("df_c17", df_c17),
   ("dag_c01", dag_c01), ("dag_c02", dag_c02), ("dag_c03", dag_c03),
   ("dag_c04", dag_c04), ("dag_c05", dag_c05), ("dag_c06", dag_c06),
   ("dag_c07", dag_c07), ("dag_c08", dag_c08), ("dag_c09", dag_c09),
   ("dag_c10", dag_c10),
   ("p0_c01", p0_c01), ("p0_c02", p0_c02), ("p0_c03", p0_c03),
   ("p0_c04", p0_c04), ("p0_c05", p0_c05), ("p0_c06", p0_c06),
   ("p0_c07", p0_c07), ("p0_c08", p0_c08), ("p0_c09", p0_c09),
   ("p0_c10", p0_c10), ("p0_c11", p0_c11), ("p0_c12", p0_c12),
   ("p0_c13", p0_c13), ("p0_c14", p0_c14), ("p0_c15", p0_c15),
   ("p0_c16", p0_c16), ("p0_c17", p0_c17), ("p0_c18", p0_c18)]

def dataframeCells : List Cell :=
  [df_c01, df_c02, df_c03, df_c04, df_c05, df_c06, df_c07, df_c08, df_c09,
   df_c10, df_c11, df_c12, df_c13, df_c14, df_c15, df_c16, df_c17]

def dagCells : List Cell :=
  [dag_c01, dag_c02, dag_c03, dag_c04, dag_c05, dag_c06, dag_c07, dag_c08,
   dag_c09, dag_c10]

def part000Cells : List Cell :=
  [p0_c01, p0_c02, p0_c03, p0_c04, p0_c05, p0_c06, p0_c07, p0_c08, p0_c09,
   p0_c10, p0_c11, p0_c12, p0_c13, p0_c14, p0_c15, p0_c16, p0_c17, p0_c18]

/-! ### Syntactic predicates on the embedded code -/

mutual

/-- Does a statement contain a `while` or `for` loop (also inside nested
definitions)? -/
def stmtHasLoop : Stmt → Bool
  | .funcDef _ _ _ body => cellHasLoop body
  | .whileLoop _ _ => true
  | .forLoop _ _ _ => true
  | .tryStmt body handlers => cellHasLoop body || cellHasLoop handlers
  | .lockStmt body => cellHasLoop body
  | _ => false

/-- Does any statement of the list contain a loop? -/
def cellHasLoop : List Stmt → Bool
  | [] => false
  | s :: rest => stmtHasLoop s || cellHasLoop rest

end

mutual

/-- Does a statement contain a `try/except` block? -/
def stmtHasTry : Stmt → Bool
  | .funcDef _ _ _ body => cellHasTry body
  | .whileLoop _ body => cellHasTry body
  | .forLoop _ _ body => cellHasTry body
  | .tryStmt _ _ => true
  | .lockStmt body => cellHasTry body
  | _ => false

/-- Does any statement of the list contain a `try/except` block? -/
def cellHasTry : List Stmt → Bool
  | [] => false
  | s :: rest => stmtHasTry s || cellHasTry rest

end

mutual

/-- Does a statement contain a concurrency primitive (lock acquisition,
spawn, cancellation)? -/
def stmtHasConc : Stmt → Bool
  | .funcDef _ _ _ body => cellHasConc body
  | .whileLoop _ body => cellHasConc body
  | .forLoop _ _ body => cellHasConc body
  | .tryStmt body handlers => cellHasConc body || cellHasConc handlers
  | .lockStmt _ => true
  | .spawnStmt _ => true
  | .cancelStmt _ => true
  | _ => false

/-- Does any statement of the list contain a concurrency primitive? -/
def cellHasConc : List Stmt → Bool
  | [] => false
  | s :: rest => stmtHasConc s || cellHasConc rest

end

mutual

/-- All identifiers read by the expressions of a statement, in source
order. -/
def stmtReads : Stmt → List String
  | .imp _ => []
  | .assign _ rs => rs
  | .augAssign t rs => t :: rs
  | .exprStmt rs => rs
  | .ret rs => rs
  | .funcDef _ _ _ body => cellReads body
  | .whileLoop rs body => rs ++ cellReads body
  | .forLoop _ rs body => rs ++ cellReads body
  | .tryStmt body handlers => cellReads body ++ cellReads handlers
  | .lockStmt body => cellReads body
  | .spawnStmt rs => rs
  | .cancelStmt rs => rs

/-- All identifiers read by a list of statements. -/
def cellReads : List Stmt → List String
  | [] => []
  | s :: rest => stmtReads s ++ cellReads rest

end

mutual

/-- All names bound by a statement (assignment targets, loop variables,
names of defined functions). -/
def stmtBinds : Stmt → List String
  | .imp _ => []
  | .assign ts _ => ts
  | .augAssign t _ => [t]
  | .exprStmt _ => []
  | .ret _ => []
  | .funcDef f _ _ _ => [f]
  | .whileLoop _ body => cellBinds body
  | .forLoop vs _ body => vs ++ cellBinds body
  | .tryStmt body handlers => cellBinds body ++ cellBinds handlers
  | .lockStmt body => cellBinds body
  | .spawnStmt _ => []
  | .cancelStmt _ => []

/-- All names bound by a list of statements. -/
def cellBinds : List Stmt → List String
  | [] => []
  | s :: rest => stmtBinds s ++ cellBinds rest

end

/-- Targets of plain assignments of a top-level statement (the
module-level data variables; `def`s bind functions, not data). -/
def stmtAssignTargets : Stmt → List String
  | .assign ts _ => ts
  | .augAssign t _ => [t]
  | _ => []

/-- The module-level variables of a notebook: every name assigned at the
top level of one of its cells. -/
def moduleVars (cells : List Cell) : List String :=
  (cells.flatMap (fun c => c.flatMap stmtAssignTargets)).dedup

/-- The free reads of an authored function: identifiers its body reads
that are neither parameters nor bound locally in the body. -/
def funcFreeReads (params : List String) (body : List Stmt) : List String :=
  ((cellReads body).filter
    (fun n => !(params.contains n || (cellBinds body).contains n))).dedup

/-- The module-level variables of notebook `nb` that an authored function
with the given parameters and body reads. -/
def readsModuleVars (nb : List Cell) (params : List String)
    (body : List Stmt) : List String :=
  (funcFreeReads params body).filter (fun n => (moduleVars nb).contains n)

/-! ### Execution semantics with failing library calls

A statement executes by evaluating its expressions; evaluating an
expression invokes external library calls, which may raise.  The oracle
`fail` maps the identifier list an expression reads to `some e` when the
underlying library raises the exception `e` there, and `none` when it
succeeds.  Loop conditions cannot be evaluated statically, so the fuel
argument fixes the number of iterations each loop performs; the theorems
below hold for every fuel.  An exception aborts the remainder of a
statement sequence unless a `try/except` intervenes — which is exactly
what the authored cells are proved not to contain. -/

def evalE (fail : List String → Option String) (rs : List String) :
    Except String Unit :=
  match fail rs with
  | some e => .error e
  | none => .ok ()

mutual

def runStmt (fail : List String → Option String) (fuel : Nat) :
    Stmt → Except String Unit
  | .imp _ => .ok ()
  | .assign _ rs => evalE fail rs
  | .augAssign t rs => evalE fail (t :: rs)
  | .exprStmt rs => evalE fail rs
  | .ret rs => evalE fail rs
  | .funcDef _ _ _ _ => .ok ()
  | .whileLoop rs body => runLoop fail fuel rs body
  | .forLoop _ rs body => runLoop fail fuel rs body
  | .tryStmt body handlers =>
      match runStmts fail fuel body with
      | .ok () => .ok ()
      | .error _ => runStmts fail fuel handlers
  | .lockStmt body => runStmts fail fuel body
  | .spawnStmt rs => evalE fail rs
  | .cancelStmt rs => evalE fail rs
termination_by s => (fuel, sizeOf s)

def runStmts (fail : List String → Option String) (fuel : Nat) :
    List Stmt → Except String Unit
  | [] => .ok ()
  | s :: rest =>
      match runStmt fail fuel s with
      | .ok () => runStmts fail fuel rest
      | .error e => .error e
termination_by l => (fuel, sizeOf l)

def runLoop (fail : List String → Option String) (fuel : Nat)
    (rs : List String) (body : List Stmt) : Except String Unit :=
  match fuel with
  | 0 => evalE fail rs
  | fuel' + 1 =>
      match evalE fail rs with
      | .error e => .error e
      | .ok () =>
          match runStmts fail fuel' body with
          | .error e => .error e
          | .ok () => runLoop fail fuel' rs body
termination_by (fuel, sizeOf rs + sizeOf body)

end

/-! The library-call trace: the sequence of expression evaluations a
program performs when nothing fails, mirroring the run semantics. -/

mutual

def traceStmt (fuel : Nat) : Stmt → List (List String)
  | .imp _ => []
  | .assign _ rs => [rs]
  | .augAssign t rs => [t :: rs]
  | .exprStmt rs => [rs]
  | .ret rs => [rs]
  | .funcDef _ _ _ _ => []
  | .whileLoop rs body => traceLoop fuel rs body
  | .forLoop _ rs body => traceLoop fuel rs body
  | .tryStmt body handlers => traceStmts fuel body ++ traceStmts fuel handlers
  | .lockStmt body => traceStmts fuel body
  | .spawnStmt rs => [rs]
  | .cancelStmt rs => [rs]
termination_by s => (fuel, sizeOf s)

def traceStmts (fuel : Nat) : List Stmt → List (List String)
  | [] => []
  | s :: rest => traceStmt fuel s ++ traceStmts fuel rest
termination_by l => (fuel, sizeOf l)

def traceLoop (fuel : Nat) (rs : List String) (body : List Stmt) :
    List (List String) :=
  match fuel with
  | 0 => [rs]
  | fuel' + 1 => rs :: (traceStmts fuel' body ++ traceLoop fuel' rs body)
termination_by (fuel, sizeOf rs + sizeOf body)

end

/-- The first library failure along a trace of expression evaluations. -/
def firstFailure (fail : List String → Option String) :
    List (List String) → Option String
  | [] => none
  | rs :: rest =>
      match fail rs with
      | some e => some e
      | none => firstFailure fail rest

/-- The outcome dictated by the underlying library alone: raise the first
library exception of the trace unchanged, succeed when no call raises. -/
def libOutcome (fail : List String → Option String)
    (t : List (List String)) : Except String Unit :=
  match firstFailure fail t with
  | some e => .error e
  | none => .ok ()

/-! ### Concrete module environments used in counterexamples

The timing oracles are the constant zero: the differences exhibited below
are purely structural (list lengths), independent of any measured time. -/

def envA : NotebookEnv :=
  { df_len := 300000, CHUNK_SIZE := 100000,
    dask_sum_time := fun _ => 0, pandas_sum_time := fun _ => 0,
    dask_train_time := fun _ => 0, pandas_train_time := fun _ => 0 }

/-- Same module state as `envA` except for `CHUNK_SIZE`. -/
def envB : NotebookEnv := { envA with CHUNK_SIZE := 50000 }

/-- Same module state as `envA` except for the dataframe length. -/
def envC : NotebookEnv := { envA with df_len := 500000 }

/-! ## Proofs -/

theorem hrs_loop_eq (size : ℚ) (suffixIndex : Nat) :
    hrs_loop size suffixIndex =
      if size > 1024 ∧ suffixIndex < 4 then
        hrs_loop (size / 1024) (suffixIndex + 1)
      else (size, suffixIndex) := by
  rw [hrs_loop]
  split <;> simp_all

theorem hrs_loop_stop (size : ℚ) (suffixIndex : Nat)
    (h : ¬ (size > 1024 ∧ suffixIndex < 4)) :
    hrs_loop size suffixIndex = (size, suffixIndex) := by
  rw [hrs_loop_eq]; simp [h]

theorem hrs_loop_step (size : ℚ) (suffixIndex : Nat)
    (h : size > 1024 ∧ suffixIndex < 4) :
    hrs_loop size suffixIndex = hrs_loop (size / 1024) (suffixIndex + 1) := by
  rw [hrs_loop_eq]; simp [h]

/-- The loop computes exactly the magnitude and index described by
`kSpec`. -/
theorem hrs_loop_spec (size : ℚ) :
    hrs_loop size 0 = (size / 1024 ^ kSpec size, kSpec size) := by
  by_cases h0 : size ≤ 1024
  · rw [hrs_loop_stop size 0 (by simp; linarith)]
    simp [kSpec, h0]
  · push_neg at h0
    rw [hrs_loop_step size 0 ⟨h0, by norm_num⟩]
    by_cases h1 : size / 1024 ≤ 1024
    · rw [hrs_loop_stop _ 1 (by simp; linarith)]
      simp [kSpec, h1, not_le.mpr h0, pow_one]
    · push_neg at h1
      rw [hrs_loop_step _ 1 ⟨h1, by norm_num⟩]
      have e2 : size / 1024 / 1024 = size / 1024 ^ 2 := by
        rw [div_div]; norm_num
      by_cases h2 : size / 1024 ^ 2 ≤ 1024
      · rw [hrs_loop_stop _ 2 (by simp; rw [e2]; linarith)]
        simp [kSpec, h2, not_le.mpr h0, not_le.mpr h1, pow_one, e2]
      · push_neg at h2
        rw [hrs_loop_step _ 2 ⟨by rw [e2]; exact h2, by norm_num⟩]
        have e3 : size / 1024 / 1024 / 1024 = size / 1024 ^ 3 := by
          rw [div_div, div_div]; norm_num
        by_cases h3 : size / 1024 ^ 3 ≤ 1024
        · rw [hrs_loop_stop _ 3 (by simp; rw [e3]; linarith)]
          simp [kSpec, h3, not_le.mpr h0, not_le.mpr h1, not_le.mpr h2,
            pow_one, e3]
        · push_neg at h3
          rw [hrs_loop_step _ 3 ⟨by rw [e3]; exact h3, by norm_num⟩]
          rw [hrs_loop_stop _ 4 (by simp)]
          have e4 : size / 1024 / 1024 / 1024 / 1024 = size / 1024 ^ 4 := by
            rw [div_div, div_div, div_div]; norm_num
          simp [kSpec, not_le.mpr h0, not_le.mpr h1, not_le.mpr h2,
            not_le.mpr h3, pow_one, e4]

theorem kSpec_le_four (size : ℚ) : kSpec size ≤ 4 := by
  unfold kSpec
  split <;> [omega; split <;> [omega; split <;> [omega; split <;> omega]]]

theorem firstFailure_append (fail : List String → Option String)
    (t1 t2 : List (List String)) :
    firstFailure fail (t1 ++ t2) =
      match firstFailure fail t1 with
      | some e => some e
      | none => firstFailure fail t2 := by
  induction t1 with
  | nil => simp [firstFailure]
  | cons rs rest ih =>
      simp only [List.cons_append, firstFailure]
      cases fail rs <;> simp [ih]

theorem libOutcome_append (fail : List String → Option String)
    (t1 t2 : List (List String)) :
    libOutcome fail (t1 ++ t2) =
      match libOutcome fail t1 with
      | .ok () => libOutcome fail t2
      | .error e => .error e := by
  simp only [libOutcome, firstFailure_append]
  cases firstFailure fail t1 <;> simp

theorem libOutcome_cons (fail : List String → Option String)
    (rs : List String) (t : List (List String)) :
    libOutcome fail (rs :: t) =
      match fail rs with
      | some e => .error e
      | none => libOutcome fail t := by
  simp only [libOutcome, firstFailure]
  cases fail rs <;> simp

mutual

/-- A try-free statement behaves exactly as the underlying library
dictates: it raises the first library exception unchanged and succeeds
when no library call raises. -/
theorem runStmt_lib (fail : List String → Option String) (fuel : Nat)
    (s : Stmt) (h : stmtHasTry s = false) :
    runStmt fail fuel s = libOutcome fail (traceStmt fuel s) := by
  match s with
  | .imp m => simp [runStmt, traceStmt, libOutcome, firstFailure]
  | .assign ts rs =>
      simp only [runStmt, traceStmt, libOutcome_cons, evalE]
      cases fail rs <;> simp [libOutcome, firstFailure]
  | .augAssign t rs =>
      simp only [runStmt, traceStmt, libOutcome_cons, evalE]
      cases fail (t :: rs) <;> simp [libOutcome, firstFailure]
  | .exprStmt rs =>
      simp only [runStmt, traceStmt, libOutcome_cons, evalE]
      cases fail rs <;> simp [libOutcome, firstFailure]
  | .ret rs =>
      simp only [runStmt, traceStmt, libOutcome_cons, evalE]
      cases fail rs <;> simp [libOutcome, firstFailure]
  | .funcDef f ds ps body => simp [runStmt, traceStmt, libOutcome, firstFailure]
  | .whileLoop rs body =>
      have hb : cellHasTry body = false := by simpa [stmtHasTry] using h
      simp only [runStmt, traceStmt]
      exact runLoop_lib fail fuel rs body hb
  | .forLoop vs rs body =>
      have hb : cellHasTry body = false := by simpa [stmtHasTry] using h
      simp only [runStmt, traceStmt]
      exact runLoop_lib fail fuel rs body hb
  | .tryStmt body handlers => simp [stmtHasTry] at h
  | .lockStmt body =>
      have hb : cellHasTry body = false := by simpa [stmtHasTry] using h
      simp only [runStmt, traceStmt]
      exact runStmts_lib fail fuel body hb
  | .spawnStmt rs =>
      simp only [runStmt, traceStmt, libOutcome_cons, evalE]
      cases fail rs <;> simp [libOutcome, firstFailure]
  | .cancelStmt rs =>
      simp only [runStmt, traceStmt, libOutcome_cons, evalE]
      cases fail rs <;> simp [libOutcome, firstFailure]
termination_by (fuel, sizeOf s)

/-- A try-free statement sequence behaves exactly as the underlying
library dictates. -/
theorem runStmts_lib (fail : List String → Option String) (fuel : Nat)
    (l : List Stmt) (h : cellHasTry l = false) :
    runStmts fail fuel l = libOutcome fail (traceStmts fuel l) := by
  match l with
  | [] => simp [runStmts, traceStmts, libOutcome, firstFailure]
  | s :: rest =>
      have hs : stmtHasTry s = false := by
        simp [cellHasTry] at h; exact h.1
      have hr : cellHasTry rest = false := by
        simp [cellHasTry] at h; exact h.2
      simp only [runStmts, traceStmts]
      rw [runStmt_lib fail fuel s hs, libOutcome_append]
      cases hc : libOutcome fail (traceStmt fuel s) with
      | ok u => cases u; exact runStmts_lib fail fuel rest hr
      | error e => rfl
termination_by (fuel, sizeOf l)

/-- A loop over a try-free body behaves exactly as the underlying library
dictates, for any number of iterations. -/
theorem runLoop_lib (fail : List String → Option String) (fuel : Nat)
    (rs : List String) (body : List Stmt) (h : cellHasTry body = false) :
    runLoop fail fuel rs body = libOutcome fail (traceLoop fuel rs body) := by
  match fuel with
  | 0 =>
      simp only [runLoop, traceLoop, libOutcome_cons, evalE]
      cases fail rs <;> simp [libOutcome, firstFailure]
  | fuel' + 1 =>
      simp only [runLoop, traceLoop, libOutcome_cons, evalE]
      cases fail rs with
      | some e => rfl
      | none =>
          simp only
          rw [runStmts_lib fail fuel' body h, libOutcome_append]
          cases hc : libOutcome fail (traceStmts fuel' body) with
          | ok u => cases u; exact runLoop_lib fail fuel' rs body h
          | error e => rfl
termination_by (fuel, sizeOf rs + sizeOf body)

end

theorem foldl_append_pair (f g : Nat → ℚ) (l : List Nat) (acc1 acc2 : List ℚ) :
    (l.foldl (fun acc count => (acc.1 ++ [f count], acc.2 ++ [g count]))
      (acc1, acc2)) = (acc1 ++ l.map f, acc2 ++ l.map g) := by
  induction l generalizing acc1 acc2 with
  | nil => simp
  | cons c t ih => simp [List.foldl_cons, ih]

/-! ## Claims -/

/-- C1, counterexample: the dataframe.ipynb cell defining
`human_readable_size` is an authored code cell containing a `while` loop,
and the function computes its own result (here `1 MiB` is formatted as
`1024.00KB` from the authored loop, not by a library call) — so not every
authored cell is loop-free usage glue. -/
theorem C1_counterexample :
    ("df_c05", df_c05) ∈ allCells ∧ cellHasLoop df_c05 = true ∧
      human_readable_size 1048576 2 = some (2, 1024, "KB") := by
  refine ⟨?_, by decide, ?_⟩
  · unfold allCells
    exact List.mem_cons_of_mem _ (List.mem_cons_of_mem _ (List.mem_cons_of_mem _
      (List.mem_cons_of_mem _ (List.mem_cons_self _ _))))
  · simp only [human_readable_size, hrs_loop_spec]
    have hk : kSpec 1048576 = 1 := by norm_num [kSpec]
    rw [hk]
    norm_num [suffixes]

/-- C1, amended: every authored code cell of the three notebooks is
loop-free usage glue except exactly the three dataframe.ipynb cells
defining `human_readable_size`, `measure_sum_speed` and
`measure_train_speed`, whose authored loops compute their own results. -/
theorem C1_amended :
    (allCells.filter (fun p => cellHasLoop p.2)).map Prod.fst =
      ["df_c05", "df_c11", "df_c15"] := by
  decide

/-- C2, counterexample: the client construction of the part000 notebook
omits the memory limit (it passes `processes=False`,
`threads_per_worker=4`, `n_workers=1`), so not every client construction
supplies all three configuration parameters. -/
theorem C2_counterexample :
    client_part000 ∈ clientCalls ∧ client_part000.memory_limit = none := by
  decide

/-- C2, amended: every client construction supplies the worker count and
threads per worker, and every one except the part000 construction also
supplies the memory limit. -/
theorem C2_amended :
    ∀ c ∈ clientCalls,
      c.n_workers.isSome ∧ c.threads_per_worker.isSome ∧
        (c.memory_limit.isSome ∨ c = client_part000) := by
  decide

theorem C2_witness :
    client_dataframe ∈ clientCalls ∧
      (client_dataframe.n_workers.isSome ∧
        client_dataframe.threads_per_worker.isSome ∧
        (client_dataframe.memory_limit.isSome ∨
          client_dataframe = client_part000)) :=
  ⟨by decide, C2_amended client_dataframe (by decide)⟩

/-- C3, counterexample: the `train` authored in dataframe.ipynb has no
`return` statement, so it returns `None` rather than the fitted
estimator. -/
theorem C3_counterexample :
    train_dataframe ⟨[1], [2]⟩ ≠
      some (linearRegressionFit ⟨[1], [2]⟩) := by
  simp [train_dataframe]

/-- C3, amended: the `train` authored in part000 returns the fitted
regression estimator for every partition, so its groupby-apply yields one
fitted model per group; the `train` authored in dataframe.ipynb fits an
estimator but returns `None`. -/
theorem C3_amended (p : Partition) (groups : List Partition) :
    train_part000 p = some (linearRegressionFit p) ∧
    train_dataframe p = none ∧
    groupbyApply train_part000 groups =
      groups.map (fun q => some (linearRegressionFit q)) :=
  ⟨rfl, rfl, rfl⟩

theorem C3_witness :
    train_part000 ⟨[1], [2]⟩ = some (linearRegressionFit ⟨[1], [2]⟩) ∧
    train_dataframe ⟨[1], [2]⟩ = none ∧
    groupbyApply train_part000 [⟨[1], [2]⟩] =
      [some (linearRegressionFit ⟨[1], [2]⟩)] :=
  C3_amended ⟨[1], [2]⟩ [⟨[1], [2]⟩]

/-- C4, counterexample: `measure_sum_speed` takes no parameters, yet two
module-level environments differing only in `CHUNK_SIZE` give different
results (2 versus 5 timings collected), so its result does not depend only
on explicit parameters. -/
theorem C4_counterexample :
    measure_sum_speed envA ≠ measure_sum_speed envB := by
  intro h
  have h2 : (measure_sum_speed envA).1.length =
      (measure_sum_speed envB).1.length := by rw [h]
  rw [show (measure_sum_speed envA).1.length = 2 from rfl] at h2
  rw [show (measure_sum_speed envB).1.length = 5 from rfl] at h2
  exact absurd h2 (by norm_num)

/-- C4, amended: `human_readable_size` and both `train` functions read no
module-level variable, but the two benchmark functions do:
`measure_sum_speed` reads the module-level `df`, `ddf` and `CHUNK_SIZE`,
`measure_train_speed` reads `df` and `ddf`, and the results of both depend
on that module-level state. -/
theorem C4_amended :
    readsModuleVars dataframeCells ["size", "precision"]
        human_readable_size_body = [] ∧
    readsModuleVars dataframeCells ["partition"] train_dataframe_body = [] ∧
    readsModuleVars part000Cells ["partition"] train_part000_body = [] ∧
    readsModuleVars dataframeCells [] measure_sum_speed_body =
      ["CHUNK_SIZE", "ddf", "df"] ∧
    readsModuleVars dataframeCells [] measure_train_speed_body =
      ["ddf", "df"] ∧
    (∃ e1 e2 : NotebookEnv, measure_sum_speed e1 ≠ measure_sum_speed e2) ∧
    (∃ e1 e2 : NotebookEnv, measure_train_speed e1 ≠ measure_train_speed e2) := by
  refine ⟨by decide, by decide, by decide, by decide, by decide,
    ⟨envA, envB, ?_⟩, ⟨envA, envC, ?_⟩⟩
  · intro h
    have h2 : (measure_sum_speed envA).1.length =
        (measure_sum_speed envB).1.length := by rw [h]
    rw [show (measure_sum_speed envA).1.length = 2 from rfl] at h2
    rw [show (measure_sum_speed envB).1.length = 5 from rfl] at h2
    exact absurd h2 (by norm_num)
  · intro h
    have h2 : (measure_train_speed envA).1.length =
        (measure_train_speed envC).1.length := by rw [h]
    rw [show (measure_train_speed envA).1.length = 2 from rfl] at h2
    rw [show (measure_train_speed envC).1.length = 4 from rfl] at h2
    exact absurd h2 (by norm_num)

/-- C5, counterexample: the dataframe.ipynb generation call
`dask.datasets.timeseries()` passes none of the five configurable
parameters. -/
theorem C5_counterexample :
    timeseries_dataframe ∈ timeseriesCalls ∧
      timeseries_dataframe.passesAll = false := by
  decide

/-- C5, amended: every generation of the partitioned time-indexed dataset
passes all five configurable parameters except the dataframe.ipynb call,
which passes none and relies on the library defaults. -/
theorem C5_amended :
    ∀ t ∈ timeseriesCalls,
      t.passesAll = true ∨ t = timeseries_dataframe := by
  decide

theorem C5_witness :
    timeseries_part000 ∈ timeseriesCalls ∧
      (timeseries_part000.passesAll = true ∨
        timeseries_part000 = timeseries_dataframe) :=
  ⟨by decide, C5_amended timeseries_part000 (by decide)⟩

/-- C6: no authored cell contains a `try/except` (the only statement form
that can consume an exception), and consequently every authored cell —
and every authored function body — behaves exactly as the underlying
library dictates: for every failure oracle and every number of loop
iterations, it raises precisely the first exception a library call raises,
unchanged, and succeeds when no library call raises. -/
theorem C6_no_error_handling :
    (∀ p ∈ allCells, cellHasTry p.2 = false) ∧
    (∀ p ∈ allCells, ∀ fail fuel,
        runStmts fail fuel p.2 = libOutcome fail (traceStmts fuel p.2)) ∧
    (∀ body ∈ [human_readable_size_body, measure_sum_speed_body,
        measure_train_speed_body, train_dataframe_body, train_part000_body],
      cellHasTry body = false ∧
      ∀ fail fuel,
        runStmts fail fuel body = libOutcome fail (traceStmts fuel body)) := by
  have h1 : ∀ p ∈ allCells, cellHasTry p.2 = false := by decide
  have h2 : ∀ body ∈ [human_readable_size_body, measure_sum_speed_body,
      measure_train_speed_body, train_dataframe_body, train_part000_body],
      cellHasTry body = false := by decide
  exact ⟨h1, fun p hp fail fuel => runStmts_lib fail fuel p.2 (h1 p hp),
    fun b hb => ⟨h2 b hb, fun fail fuel => runStmts_lib fail fuel b (h2 b hb)⟩⟩

theorem C6_witness :
    ("df_c01", df_c01) ∈ allCells ∧ cellHasTry df_c01 = false ∧
      runStmts (fun _ => none) 1 df_c01 =
        libOutcome (fun _ => none) (traceStmts 1 df_c01) := by
  have hm : ("df_c01", df_c01) ∈ allCells := by
    unfold allCells
    exact List.mem_cons_self _ _
  exact ⟨hm, C6_no_error_handling.1 _ hm,
    C6_no_error_handling.2.1 _ hm (fun _ => none) 1⟩

/-- C7, counterexample: the part000 client construction also passes the
keyword `processes`, which is not among the three configuration values the
claim enumerates (worker count, threads per worker, memory limit). -/
theorem C7_counterexample :
    client_part000 ∈ clientCalls ∧
      ¬ client_part000.keywords ⊆
        ["n_workers", "threads_per_worker", "memory_limit"] := by
  decide

/-- C7, amended: every keyword the notebooks pass to the external client
is a configuration value — worker count, threads per worker, memory limit,
or the process-mode flag `processes` — and no authored statement in any
cell performs locking, spawning/scheduling, or cancellation. -/
theorem C7_amended :
    (∀ c ∈ clientCalls,
      c.keywords ⊆
        ["n_workers", "threads_per_worker", "memory_limit", "processes"]) ∧
    (∀ p ∈ allCells, cellHasConc p.2 = false) := by
  constructor <;> decide

theorem C7_witness :
    client_dag ∈ clientCalls ∧ ("df_c01", df_c01) ∈ allCells ∧
      client_dag.keywords ⊆
        ["n_workers", "threads_per_worker", "memory_limit", "processes"] ∧
      cellHasConc df_c01 = false := by
  have hm : ("df_c01", df_c01) ∈ allCells := by
    unfold allCells
    exact List.mem_cons_self _ _
  exact ⟨by decide, hm, C7_amended.1 client_dag (by decide), C7_amended.2 _ hm⟩

/-- C8: `human_readable_size` is total and safe for every size and
precision: the loop leaves `suffixIndex` at most 4 (so it increments at
most 4 times starting from 0), the index stays within the bounds of the
five-element suffix list, and the lookup — hence the whole function —
always succeeds. -/
theorem C8_human_readable_size_safe (size : ℚ) (precision : Nat) :
    (hrs_loop size 0).2 ≤ 4 ∧
    (hrs_loop size 0).2 < suffixes.length ∧
    (human_readable_size size precision).isSome := by
  have h := hrs_loop_spec size
  have hk := kSpec_le_four size
  refine ⟨by rw [h]; exact hk, by rw [h]; simp [suffixes]; omega, ?_⟩
  simp only [human_readable_size, h]
  cases hg : suffixes.get? (kSpec size) with
  | some s => simp [hg]
  | none =>
      exfalso
      have hlen := List.get?_eq_none.mp hg
      simp [suffixes] at hlen
      omega

theorem C8_witness :
    (hrs_loop 5 0).2 ≤ 4 ∧ (hrs_loop 5 0).2 < suffixes.length ∧
      (human_readable_size 5 2).isSome :=
  C8_human_readable_size_safe 5 2

/-- C9: `human_readable_size` returns the magnitude `size / 1024 ^ k` with
the suffix at index `k`, where `k` is the smallest index (capped at 4)
with `size / 1024 ^ k ≤ 1024`; in particular every size at most 1024 —
including exactly 1024, zero and negative sizes — keeps suffix `B` with
magnitude equal to the input. -/
theorem C9_human_readable_size_magnitude (size : ℚ) (precision : Nat) :
    human_readable_size size precision =
      (suffixes.get? (kSpec size)).map
        (fun s => (precision, size / 1024 ^ kSpec size, s)) ∧
    (size ≤ 1024 →
      human_readable_size size precision = some (precision, size, "B")) := by
  constructor
  · simp only [human_readable_size, hrs_loop_spec]
  · intro h
    have hk : kSpec size = 0 := by simp [kSpec, h]
    simp only [human_readable_size, hrs_loop_spec, hk]
    simp [suffixes]

theorem C9_witness :
    human_readable_size 512 2 =
      (suffixes.get? (kSpec 512)).map
        (fun s => (2, (512 : ℚ) / 1024 ^ kSpec 512, s)) ∧
    human_readable_size 512 2 = some (2, 512, "B") :=
  ⟨(C9_human_readable_size_magnitude 512 2).1,
   (C9_human_readable_size_magnitude 512 2).2 (by norm_num)⟩

/-- C10, counterexample: with `CHUNK_SIZE = 50000` and a dataframe of
300000 rows, `measure_train_speed` collects 2 timings per list — the
length of `range(100000, len_df, 100000)` with its hard-coded step — not
the 5 elements of `range(CHUNK_SIZE, len_df, CHUNK_SIZE)` the claim
states. -/
theorem C10_counterexample :
    0 < envB.CHUNK_SIZE ∧
      (measure_train_speed envB).1.length ≠
        (pyRange envB.CHUNK_SIZE envB.df_len envB.CHUNK_SIZE).length := by
  refine ⟨by decide, ?_⟩
  rw [show (measure_train_speed envB).1.length = 2 from rfl]
  rw [show (pyRange envB.CHUNK_SIZE envB.df_len envB.CHUNK_SIZE).length = 5
    from rfl]
  norm_num

/-- C10, amended: both benchmark functions return a pair of equal-length
lists built by appending one dask timing and one pandas timing per chunk
in iteration order; `measure_sum_speed` produces one element per value of
`range(CHUNK_SIZE, len_df, CHUNK_SIZE)`, while `measure_train_speed`
iterates over `range(100000, len_df, 100000)` with its hard-coded step. -/
theorem C10_amended (env : NotebookEnv) (_h : 0 < env.CHUNK_SIZE) :
    ((measure_sum_speed env).1.length =
        (pyRange env.CHUNK_SIZE env.df_len env.CHUNK_SIZE).length ∧
      (measure_sum_speed env).2.length =
        (pyRange env.CHUNK_SIZE env.df_len env.CHUNK_SIZE).length) ∧
    ((measure_train_speed env).1.length =
        (pyRange 100000 env.df_len 100000).length ∧
      (measure_train_speed env).2.length =
        (pyRange 100000 env.df_len 100000).length) ∧
    (measure_sum_speed env).1 =
      (pyRange env.CHUNK_SIZE env.df_len env.CHUNK_SIZE).map
        env.dask_sum_time ∧
    (measure_sum_speed env).2 =
      (pyRange env.CHUNK_SIZE env.df_len env.CHUNK_SIZE).map
        env.pandas_sum_time ∧
    (measure_train_speed env).1 =
      (pyRange 100000 env.df_len 100000).map env.dask_train_time ∧
    (measure_train_speed env).2 =
      (pyRange 100000 env.df_len 100000).map env.pandas_train_time := by
  have e1 : measure_sum_speed env =
      ((pyRange env.CHUNK_SIZE env.df_len env.CHUNK_SIZE).map
          env.dask_sum_time,
       (pyRange env.CHUNK_SIZE env.df_len env.CHUNK_SIZE).map
          env.pandas_sum_time) := by
    have h1 := foldl_append_pair env.dask_sum_time env.pandas_sum_time
      (pyRange env.CHUNK_SIZE env.df_len env.CHUNK_SIZE) [] []
    rw [List.nil_append, List.nil_append] at h1
    exact h1
  have e2 : measure_train_speed env =
      ((pyRange 100000 env.df_len 100000).map env.dask_train_time,
       (pyRange 100000 env.df_len 100000).map env.pandas_train_time) := by
    have h2 := foldl_append_pair env.dask_train_time env.pandas_train_time
      (pyRange 100000 env.df_len 100000) [] []
    rw [List.nil_append, List.nil_append] at h2
    exact h2
  refine ⟨⟨?_, ?_⟩, ⟨?_, ?_⟩, ?_, ?_, ?_, ?_⟩ <;> simp [e1, e2]

theorem C10_witness :
    0 < envA.CHUNK_SIZE ∧
      (measure_sum_speed envA).1.length =
        (pyRange envA.CHUNK_SIZE envA.df_len envA.CHUNK_SIZE).length ∧
      (measure_train_speed envA).1.length =
        (pyRange 100000 envA.df_len 100000).length :=
  ⟨by decide, (C10_amended envA (by decide)).1.1,
    (C10_amended envA (by decide)).2.1.1⟩
